import Mathlib

/-!
Verification development for the `pgas` payment-gateway adapter system.

Shallow embedding of the Go sources:
  * `pkg/providers/types.go`      — normalized request/response/error schema
  * `pkg/providers/mastercard`    — MasterCard adapter (Adapter-A)
  * `pkg/providers/visa`          — Visa adapter (Adapter-B)
  * `pkg/processor/processor.go`  — registry + orchestration pipeline

Modelling conventions:
  * Go `float64` amounts are modelled as `ℚ`; `strconv.FormatFloat(x, 'f', -1, 64)`
    and `strconv.ParseFloat` become an exact decimal codec (`fmtAmount` /
    `parseGoFloat`).  Every `float64` value is a rational whose denominator is a
    product of powers of 2 (hence divides a power of 10), so the exact-decimal
    round trip models Go's documented shortest-representation round trip.
    Scientific / hex / Inf forms of `ParseFloat` input are not modelled; they are
    unreachable from strings produced by `FormatFloat` with format 'f'.
  * The simulated randomness `rand.Float64() < 0.1` is modelled by an explicit
    draw parameter `draw : ℚ` compared with `1/10` (the float literal `0.1` is
    identified with the rational it denotes).
  * `time.Time` values are modelled by an integer token (`GoVal.time`); visa's
    `time.Unix(sec, 0)` becomes the integer itself.
  * Go `interface{}` envelope values are modelled by the inductive `GoVal`;
    a Go `nil` interface is `GoVal.null`; map lookup on a missing key yields
    `GoVal.null` at the use sites (as in Go).
  * `encoding/json` Marshal-then-Unmarshal into a tagged struct is modelled
    structurally per field: a missing field or JSON null leaves the zero value,
    a type-mismatched field is an unmarshal error, extra fields are ignored
    (case-sensitive key match; the case-insensitive fallback of encoding/json
    is not exercised by any claim).  `json.Marshal` of a `GoVal` cannot fail.
  * A Go panic (failed unchecked type assertion) is the `POut.fault` outcome.
  * Go `len` on the ASCII strings involved equals `String.length`.
-/

/-- Outcome of a Go call: a value, an `error` return, or a panic. -/
inductive POut (α : Type) where
  | ok (a : α)
  | err (msg : String)
  | fault (msg : String)
deriving Repr, DecidableEq

/-- Normalized payment request (`providers.PaymentRequest`). -/
structure PaymentRequest where
  mode : String
  amount : ℚ
  currency : String
  cardNumber : String
  expiryMonth : String
  expiryYear : String
  cvv : String
deriving Repr, DecidableEq

/-- Normalized success response (`providers.PaymentResponse`). -/
structure PaymentResponse where
  success : Bool
  transactionID : String
  status : String
  amount : ℚ
  currency : String
  date : Option ℤ
deriving Repr, DecidableEq

/-- Normalized error (`providers.PaymentError`). -/
structure PaymentError where
  success : Bool
  errorCode : String
  errorMessage : String
deriving Repr, DecidableEq

/-- Model of a Go `interface{}` envelope value. -/
inductive GoVal where
  | null
  | str (s : String)
  | num (q : ℚ)
  | int (n : ℤ)
  | time (t : ℤ)
  | obj (fields : List (String × GoVal))
deriving Repr

/-- Association-list lookup modelling Go map indexing (keys are unique in
every map the source builds). -/
def lookupF : List (String × GoVal) → String → Option GoVal
  | [], _ => none
  | (k, v) :: rest, key => if k = key then some v else lookupF rest key

/- ## Decimal amount codec (strconv.FormatFloat 'f' -1 / strconv.ParseFloat) -/

/-- Character for a decimal digit. -/
def dChar (d : ℕ) : Char := Char.ofNat (48 + d)

/-- Numeric value of a decimal digit character. -/
def dVal (c : Char) : ℕ := c.toNat - 48

/-- ASCII decimal-digit test. -/
def isDig (c : Char) : Bool := decide (48 ≤ c.toNat) && decide (c.toNat ≤ 57)

/-- Big-endian digit characters of a natural number (empty for 0). -/
def natToChars (n : ℕ) : List Char := ((Nat.digits 10 n).map dChar).reverse

/-- Go-style decimal rendering of a natural number. -/
def natToStr (n : ℕ) : List Char := if n = 0 then ['0'] else natToChars n

/-- Fractional part: exactly `k` digit characters, left-padded with zeros. -/
def fracChars (m k : ℕ) : List Char :=
  List.replicate (k - (natToChars m).length) '0' ++ natToChars m

/-- Smallest exponent `k ≤ d` with `d ∣ 10 ^ k` (the decimal scale of a
fraction with denominator `d`); defaults to `d` when none exists. -/
def decScale (d : ℕ) : ℕ :=
  (((List.range (d + 1)).find? fun k => decide (d ∣ 10 ^ k))).getD d

/-- Decimal rendering of a nonnegative rational at its decimal scale;
models `strconv.FormatFloat(x, 'f', -1, 64)` for nonnegative `x`. -/
def fmtNonneg (q : ℚ) : List Char :=
  let k := decScale q.den
  let n := q.num.toNat * 10 ^ k / q.den
  if k = 0 then natToStr n
  else natToStr (n / 10 ^ k) ++ '.' :: fracChars (n % 10 ^ k) k

/-- Models `strconv.FormatFloat(x, 'f', -1, 64)`. -/
def fmtAmount (q : ℚ) : String :=
  if q < 0 then ⟨'-' :: fmtNonneg (-q)⟩ else ⟨fmtNonneg q⟩

/-- Value of a big-endian list of digit characters. -/
def charsVal (l : List Char) : ℕ := Nat.ofDigits 10 ((l.map dVal).reverse)

/-- Combine integer and fractional digit runs into a rational; fails when
both are empty or any character is not a digit. -/
def parseUFrac (intPart fracPart : List Char) : Option ℚ :=
  if (intPart.all isDig && fracPart.all isDig) && !(intPart.isEmpty && fracPart.isEmpty) then
    some ((charsVal intPart : ℚ) + (charsVal fracPart : ℚ) / 10 ^ fracPart.length)
  else none

/-- Parse an unsigned decimal `digits[.digits]` character run. -/
def parseUnsigned (l : List Char) : Option ℚ :=
  let ip := l.takeWhile isDig
  let rest := l.dropWhile isDig
  if rest = [] then parseUFrac ip []
  else if rest.head? = some '.' then
    (if rest.tail.all isDig then parseUFrac ip rest.tail else none)
  else none

/-- Models `strconv.ParseFloat(s, 64)` on plain decimal notation: `some` is a
`nil` error, `none` a syntax error (on which Go returns value 0). -/
def parseGoFloat (s : String) : Option ℚ :=
  match s.data with
  | [] => none
  | c :: cs =>
    if c = '-' then (parseUnsigned cs).map (fun v => -v)
    else if c = '+' then parseUnsigned cs
    else parseUnsigned (c :: cs)

/- ## JSON marshal/unmarshal model (encoding/json round trip into structs) -/

/-- JSON image of a `time.Time` token: `time.Time` marshals to a string. -/
def timeJSONStr (t : ℤ) : String := "ts-" ++ toString t

/-- Decode a JSON value into a Go `string` struct field. -/
def decStrVal : GoVal → Option String
  | GoVal.null => some ""
  | GoVal.str s => some s
  | GoVal.time t => some (timeJSONStr t)
  | _ => none

/-- Decode a (possibly absent) object field into a `string` struct field. -/
def decStrField (fs : List (String × GoVal)) (key : String) : Option String :=
  match lookupF fs key with
  | none => some ""
  | some v => decStrVal v

/-- Decode a JSON value into a Go `int64` struct field. -/
def decIntVal : GoVal → Option ℤ
  | GoVal.null => some 0
  | GoVal.int n => some n
  | GoVal.num q => if q.den = 1 then some q.num else none
  | _ => none

/-- Decode a (possibly absent) object field into an `int64` struct field. -/
def decIntField (fs : List (String × GoVal)) (key : String) : Option ℤ :=
  match lookupF fs key with
  | none => some 0
  | some v => decIntVal v

/-- Wire type `visa.PaymentResponse.Value`. -/
structure VisaValue where
  amount : String
  currencyCode : String
deriving Repr, DecidableEq

/-- Wire type `visa.PaymentResponse`. -/
structure VisaResponse where
  paymentID : String
  state : String
  value : VisaValue
  processedAt : ℤ
deriving Repr, DecidableEq

/-- Wire type `visa.PaymentError` (nested `details.code` flattened). -/
structure VisaError where
  errorType : String
  reason : String
  detailsCode : String
deriving Repr, DecidableEq

/-- Wire type `mastercard.PaymentError`. -/
structure McError where
  errorCode : String
  message : String
deriving Repr, DecidableEq

/-- Unmarshal into `visa.PaymentResponse.Value`. -/
def decVisaValue : GoVal → Option VisaValue
  | GoVal.null => some ⟨"", ""⟩
  | GoVal.obj fs => do
      let a ← decStrField fs "amount"
      let c ← decStrField fs "currency_code"
      some ⟨a, c⟩
  | _ => none

/-- Marshal-then-unmarshal of an envelope into `visa.PaymentResponse`. -/
def unmarshalVisaResponse : GoVal → Option VisaResponse
  | GoVal.null => some ⟨"", "", ⟨"", ""⟩, 0⟩
  | GoVal.obj fs => do
      let pid ← decStrField fs "payment_id"
      let st ← decStrField fs "state"
      let v ← (match lookupF fs "value" with
               | none => some (⟨"", ""⟩ : VisaValue)
               | some x => decVisaValue x)
      let pa ← decIntField fs "processed_at"
      some ⟨pid, st, v, pa⟩
  | _ => none

/-- Unmarshal into `visa.PaymentError.Details`. -/
def decVisaDetails : GoVal → Option String
  | GoVal.null => some ""
  | GoVal.obj fs => decStrField fs "code"
  | _ => none

/-- Marshal-then-unmarshal of an envelope into `visa.PaymentError`. -/
def unmarshalVisaError : GoVal → Option VisaError
  | GoVal.null => some ⟨"", "", ""⟩
  | GoVal.obj fs => do
      let t ← decStrField fs "error_type"
      let r ← decStrField fs "reason"
      let c ← (match lookupF fs "details" with
               | none => some ""
               | some x => decVisaDetails x)
      some ⟨t, r, c⟩
  | _ => none

/-- Marshal-then-unmarshal of an envelope into `mastercard.PaymentError`. -/
def unmarshalMcError : GoVal → Option McError
  | GoVal.null => some ⟨"", ""⟩
  | GoVal.obj fs => do
      let c ← decStrField fs "error_code"
      let m ← decStrField fs "message"
      some ⟨c, m⟩
  | _ => none

/- ## MasterCard adapter (src/unnamed/part_000) -/

/-- `MasterCardPaymentProvider.ValidateRequest`. -/
def mcValidate (r : PaymentRequest) : Option String :=
  if r.amount ≤ 0 then some "amount must be greater than 0"
  else if r.amount > 1000000 then some "amount exceeds maximum limit of 1,000,000"
  else if r.currency = "" then some "currency is required"
  else if r.cardNumber = "" then some "card number is required"
  else if r.cardNumber.length < 13 ∨ r.cardNumber.length > 19 then
    some "card number must be between 13 and 19 digits"
  else if r.expiryMonth = "" ∨ r.expiryYear = "" then
    some "expiry month and year are required"
  else if r.cvv = "" then some "CVV is required"
  else if r.cvv.length < 3 ∨ r.cvv.length > 4 then some "CVV must be 3 or 4 digits"
  else none

/-- `MasterCardPaymentProvider.ProcessPayment`: pair (success, error) of
`interface{}` results; `draw` models `rand.Float64()`, `now` models
`time.Now()`. -/
def mcInvoke (draw : ℚ) (now : ℤ) (r : PaymentRequest) : GoVal × GoVal :=
  if draw < 1/10 then
    (GoVal.null,
     GoVal.obj [("error_code", GoVal.str "MC0001"),
                ("message", GoVal.str "Insufficient funds")])
  else
    (GoVal.obj [("transaction_id", GoVal.str "TX1234567890"),
                ("status", GoVal.str "APPROVED"),
                ("amount", GoVal.str (fmtAmount r.amount)),
                ("currency", GoVal.str r.currency),
                ("timestamp", GoVal.time now)],
     GoVal.null)

/-- `MasterCardPaymentProvider.ParseSuccessResponse`.  The checked type
assertions on the map and on `amount` return errors; the unchecked
assertions on `transaction_id`, `status` and `currency` panic
(`POut.fault`) when the field is absent or not a string, as in Go. -/
def mcParseSuccess (v : GoVal) : POut PaymentResponse :=
  match v with
  | GoVal.obj data =>
    match lookupF data "amount" with
    | some (GoVal.str amountStr) =>
      match parseGoFloat amountStr with
      | none => POut.err "failed to convert \x27amount\x27 to float64"
      | some amount =>
        let dt : ℤ := (match lookupF data "timestamp" with
                       | some (GoVal.time t) => t
                       | _ => 0)
        match lookupF data "transaction_id" with
        | some (GoVal.str tid) =>
          (match lookupF data "status" with
           | some (GoVal.str st) =>
             (match lookupF data "currency" with
              | some (GoVal.str cur) =>
                POut.ok ⟨true, tid, st, amount, cur, some dt⟩
              | _ => POut.fault "interface conversion: interface is not string")
           | _ => POut.fault "interface conversion: interface is not string")
        | _ => POut.fault "interface conversion: interface is not string"
    | _ => POut.err "expected \x27amount\x27 field to be a string"
  | _ => POut.err "expected map of string to interface"

/-- `MasterCardPaymentProvider.ParseErrorResponse`. -/
def mcParseError (v : GoVal) : POut PaymentError :=
  match unmarshalMcError v with
  | none => POut.err "invalid response error type"
  | some e => POut.ok ⟨false, e.errorCode, e.message⟩

/- ## Visa adapter (src/pkg/providers/visa/provider.go) -/

/-- `VisaPaymentProvider.ValidateRequest` (textually identical to the
MasterCard rules in the source). -/
def visaValidate (r : PaymentRequest) : Option String :=
  if r.amount ≤ 0 then some "amount must be greater than 0"
  else if r.amount > 1000000 then some "amount exceeds maximum limit of 1,000,000"
  else if r.currency = "" then some "currency is required"
  else if r.cardNumber = "" then some "card number is required"
  else if r.cardNumber.length < 13 ∨ r.cardNumber.length > 19 then
    some "card number must be between 13 and 19 digits"
  else if r.expiryMonth = "" ∨ r.expiryYear = "" then
    some "expiry month and year are required"
  else if r.cvv = "" then some "CVV is required"
  else if r.cvv.length < 3 ∨ r.cvv.length > 4 then some "CVV must be 3 or 4 digits"
  else none

/-- `VisaPaymentProvider.ProcessPayment`: the source gate is
`rand.Float64() < 0.1` (not 0.15). -/
def visaInvoke (draw : ℚ) (r : PaymentRequest) : GoVal × GoVal :=
  if draw < 1/10 then
    (GoVal.null,
     GoVal.obj [("error_type", GoVal.str "PAYMENT_FAILED"),
                ("reason", GoVal.str "Card declined"),
                ("details", GoVal.obj [("code", GoVal.str "EE000011")])])
  else
    (GoVal.obj [("payment_id", GoVal.str "PPAAYY--778899--XXYYZZ"),
                ("state", GoVal.str "SUCCESS"),
                ("value", GoVal.obj [("amount", GoVal.str (fmtAmount r.amount)),
                                     ("currency_code", GoVal.str r.currency)]),
                ("processed_at", GoVal.int 1677587921)],
     GoVal.null)

/-- `VisaPaymentProvider.ParseSuccessResponse`.  The `strconv.ParseFloat`
error is discarded (`parsedAmount, _ :=`), so a malformed amount yields 0;
`time.Unix(processedAt, 0)` is the token `processedAt`. -/
def visaParseSuccess (v : GoVal) : POut PaymentResponse :=
  match unmarshalVisaResponse v with
  | none => POut.err "invalid response type"
  | some r =>
    let amt := (parseGoFloat r.value.amount).getD 0
    POut.ok ⟨true, r.paymentID, r.state, amt, r.value.currencyCode, some r.processedAt⟩

/-- `VisaPaymentProvider.ParseErrorResponse`. -/
def visaParseError (v : GoVal) : POut PaymentError :=
  match unmarshalVisaError v with
  | none => POut.err "invalid response error type"
  | some e =>
    POut.ok ⟨false, e.detailsCode,
             "ErrorType:" ++ e.errorType ++ " :: ErrorReason: " ++ e.reason⟩

/- ## Provider interface and registry (src/pkg/processor/processor.go) -/

/-- The two concrete implementations of `providers.Provider`; each carries
its `Name` field. -/
inductive Provider where
  | mastercard (pname : String)
  | visa (pname : String)
deriving Repr, DecidableEq

/-- `GetName`. -/
def Provider.getName : Provider → String
  | Provider.mastercard n => n
  | Provider.visa n => n

/-- `GetNewMasterCardPaymentProvider`. -/
def getNewMasterCardPaymentProvider : Provider := Provider.mastercard "mastercard"

/-- `GetNewVisaPaymentProvider`. -/
def getNewVisaPaymentProvider : Provider := Provider.visa "visa"

/-- Dynamic dispatch of `ValidateRequest`. -/
def Provider.validateRequest : Provider → PaymentRequest → Option String
  | Provider.mastercard _, r => mcValidate r
  | Provider.visa _, r => visaValidate r

/-- Dynamic dispatch of `ProcessPayment` (the simulated invoke). -/
def Provider.invoke : Provider → ℚ → ℤ → PaymentRequest → GoVal × GoVal
  | Provider.mastercard _, draw, now, r => mcInvoke draw now r
  | Provider.visa _, draw, _, r => visaInvoke draw r

/-- Dynamic dispatch of `ParseSuccessResponse`. -/
def Provider.parseSuccessResponse : Provider → GoVal → POut PaymentResponse
  | Provider.mastercard _, v => mcParseSuccess v
  | Provider.visa _, v => visaParseSuccess v

/-- Dynamic dispatch of `ParseErrorResponse`. -/
def Provider.parseErrorResponse : Provider → GoVal → POut PaymentError
  | Provider.mastercard _, v => mcParseError v
  | Provider.visa _, v => visaParseError v

/-- `registerProviders` / `NewPaymentProcessor`: fold the ordered list into
the name-indexed map; a later entry with the same name overwrites. -/
def registerProviders (ps : List Provider) : String → Option Provider :=
  ps.foldl (fun m p => fun n => if n = p.getName then some p else m n) (fun _ => none)

/-- `getProvider`: nil map entry becomes an error. -/
def getProvider (m : String → Option Provider) (name : String) : Except String Provider :=
  match m name with
  | none => Except.error ("invalid provider name provided: \x27" ++ name ++ "\x27")
  | some p => Except.ok p

/-- `ProcessPayment` pipeline: resolve → validate → invoke → parse.  The Go
return `(*PaymentResponse, *PaymentError)` is the pair of options; a panic
escaping a parse function is `POut.fault`. -/
def processPayment (m : String → Option Provider) (req : PaymentRequest)
    (draw : ℚ) (now : ℤ) : POut (Option PaymentResponse × Option PaymentError) :=
  match getProvider m req.mode with
  | Except.error msg => POut.ok (none, some ⟨false, "INVALID_PROVIDER", msg⟩)
  | Except.ok p =>
    match p.validateRequest req with
    | some vmsg => POut.ok (none, some ⟨false, "INVALID_REQUEST", vmsg⟩)
    | none =>
      let pr := p.invoke draw now req
      match pr.2 with
      | GoVal.null =>
        (match p.parseSuccessResponse pr.1 with
         | POut.ok r => POut.ok (some r, none)
         | POut.err msg => POut.ok (none, some ⟨false, "PARSING_ERROR", msg⟩)
         | POut.fault msg => POut.fault msg)
      | _ =>
        (match p.parseErrorResponse pr.2 with
         | POut.ok e => POut.ok (none, some e)
         | POut.err msg => POut.ok (none, some ⟨false, "PROCESSING_ERROR", msg⟩)
         | POut.fault msg => POut.fault msg)

/-- The registry wired with the two reference adapters (as in `main.go` and
the integration tests). -/
def refProcessor : String → Option Provider :=
  registerProviders [getNewMasterCardPaymentProvider, getNewVisaPaymentProvider]

/-- Spec-side description (§4.2): the validation checks in their fixed
order, each paired with its failure reason. -/
def specCheckOrder (r : PaymentRequest) : List (Bool × String) :=
  [(decide (r.amount ≤ 0), "amount must be greater than 0"),
   (decide (r.amount > 1000000), "amount exceeds maximum limit of 1,000,000"),
   (decide (r.currency = ""), "currency is required"),
   (decide (r.cardNumber = ""), "card number is required"),
   (decide (r.cardNumber.length < 13 ∨ r.cardNumber.length > 19),
    "card number must be between 13 and 19 digits"),
   (decide (r.expiryMonth = "" ∨ r.expiryYear = ""),
    "expiry month and year are required"),
   (decide (r.cvv = ""), "CVV is required"),
   (decide (r.cvv.length < 3 ∨ r.cvv.length > 4), "CVV must be 3 or 4 digits")]

/-- Spec-side description: the reason of the first violated check, none if
all pass (fail-fast, no aggregation). -/
def firstViolation (r : PaymentRequest) : Option String :=
  (specCheckOrder r).findSome? (fun c => if c.1 then some c.2 else none)

/-- A well-formed request routed to visa (the integration-test request). -/
def reqVisaOK : PaymentRequest :=
  ⟨"visa", 100, "USD", "4111111111111111", "12", "2025", "123"⟩

/-- A well-formed request routed to mastercard. -/
def reqMcOK : PaymentRequest :=
  ⟨"mastercard", 100, "USD", "5555555555554444", "12", "2025", "123"⟩

/-- A request with a non-positive amount. -/
def reqBadAmount : PaymentRequest :=
  ⟨"visa", -1, "USD", "4111111111111111", "12", "2025", "123"⟩

/- ## Codec lemmas -/

lemma isDig_dChar {d : ℕ} (h : d < 10) : isDig (dChar d) = true := by
  interval_cases d <;> decide

lemma dVal_dChar {d : ℕ} (h : d < 10) : dVal (dChar d) = d := by
  interval_cases d <;> decide

lemma natToChars_all_isDig (n : ℕ) : ∀ c ∈ natToChars n, isDig c = true := by
  intro c hc
  simp only [natToChars, List.mem_reverse, List.mem_map] at hc
  obtain ⟨d, hd, rfl⟩ := hc
  exact isDig_dChar (Nat.digits_lt_base (by norm_num) hd)

lemma rev_map_dVal_natToChars (n : ℕ) :
    ((natToChars n).map dVal).reverse = Nat.digits 10 n := by
  simp only [natToChars, List.map_reverse, List.reverse_reverse, List.map_map]
  calc (Nat.digits 10 n).map (dVal ∘ dChar)
      = (Nat.digits 10 n).map id := by
        apply List.map_congr_left
        intro d hd
        exact dVal_dChar (Nat.digits_lt_base (by norm_num) hd)
    _ = Nat.digits 10 n := List.map_id _

lemma charsVal_natToChars (n : ℕ) : charsVal (natToChars n) = n := by
  rw [charsVal, rev_map_dVal_natToChars, Nat.ofDigits_digits]

lemma charsVal_natToStr (n : ℕ) : charsVal (natToStr n) = n := by
  unfold natToStr
  split
  · subst n; decide
  · exact charsVal_natToChars n

lemma natToStr_ne_nil (n : ℕ) : natToStr n ≠ [] := by
  unfold natToStr
  split
  · simp
  · simp only [natToChars, ne_eq, List.reverse_eq_nil_iff, List.map_eq_nil_iff]
    exact Nat.digits_ne_nil_iff_ne_zero.mpr (by assumption)

lemma natToStr_all_isDig (n : ℕ) : ∀ c ∈ natToStr n, isDig c = true := by
  unfold natToStr
  split
  · intro c hc; simp at hc; subst hc; decide
  · exact natToChars_all_isDig n

lemma ofDigits_replicate_zero (z : ℕ) : Nat.ofDigits 10 (List.replicate z 0) = 0 := by
  induction z with
  | zero => simp
  | succ z ih => simp [List.replicate_succ, Nat.ofDigits_cons, ih]

lemma charsVal_fracChars (m k : ℕ) : charsVal (fracChars m k) = m := by
  unfold charsVal fracChars
  rw [List.map_append, List.reverse_append]
  have hzero : (List.replicate (k - (natToChars m).length) '0').map dVal
      = List.replicate (k - (natToChars m).length) 0 := by
    rw [List.map_replicate]; rfl
  rw [hzero, List.reverse_replicate, rev_map_dVal_natToChars, Nat.ofDigits_append,
    ofDigits_replicate_zero, Nat.ofDigits_digits]
  simp

lemma fracChars_all_isDig (m k : ℕ) : ∀ c ∈ fracChars m k, isDig c = true := by
  intro c hc
  rw [fracChars, List.mem_append] at hc
  rcases hc with hc | hc
  · rw [List.mem_replicate] at hc; rw [hc.2]; decide
  · exact natToChars_all_isDig m c hc

lemma digitsLen_le {m k : ℕ} (h : m < 10 ^ k) : (Nat.digits 10 m).length ≤ k := by
  by_contra hlt
  push_neg at hlt
  rcases Nat.eq_zero_or_pos m with rfl | hm
  · simp at hlt
  · have h1 : 10 ^ (Nat.digits 10 m).length ≤ 10 * m :=
      Nat.base_pow_length_digits_le 10 m (by norm_num) hm.ne'
    have h2 : 10 ^ (k + 1) ≤ 10 ^ (Nat.digits 10 m).length :=
      Nat.pow_le_pow_right (by norm_num) hlt
    rw [pow_succ] at h2
    have : 10 ^ k * 10 ≤ 10 * m := le_trans h2 h1
    omega

lemma fracChars_length {m k : ℕ} (h : m < 10 ^ k) : (fracChars m k).length = k := by
  have hlen : (natToChars m).length ≤ k := by
    have := digitsLen_le h
    simpa [natToChars] using this
  simp [fracChars]
  omega

lemma decScale_dvd {d : ℕ} (h : ∃ a b, d = 2 ^ a * 5 ^ b) : d ∣ 10 ^ decScale d := by
  obtain ⟨a, b, rfl⟩ := h
  have hj : (2 ^ a * 5 ^ b) ∣ 10 ^ (a + b) := by
    have h10 : (10 : ℕ) ^ (a + b) = 2 ^ (a + b) * 5 ^ (a + b) := by
      rw [show (10 : ℕ) = 2 * 5 from rfl, mul_pow]
    rw [h10]
    exact Nat.mul_dvd_mul (pow_dvd_pow 2 (Nat.le_add_right a b))
      (pow_dvd_pow 5 (Nat.le_add_left b a))
  have hle : a + b ≤ 2 ^ a * 5 ^ b := by
    have h2 : a + 1 ≤ 2 ^ a := Nat.lt_two_pow a
    have h5 : b + 1 ≤ 5 ^ b := Nat.lt_pow_self (by norm_num) b
    nlinarith
  have hsome : (((List.range (2 ^ a * 5 ^ b + 1)).find?
      fun k => decide ((2 ^ a * 5 ^ b) ∣ 10 ^ k))).isSome := by
    rw [List.find?_isSome]
    exact ⟨a + b, List.mem_range.mpr (Nat.lt_succ_of_le hle), by simpa using hj⟩
  obtain ⟨k, hk⟩ := Option.isSome_iff_exists.mp hsome
  have hpk := List.find?_some hk
  rw [decScale, hk, Option.getD_some]
  simpa using hpk

lemma parseUnsigned_all_dig (l : List Char) (hne : l ≠ [])
    (h : ∀ c ∈ l, isDig c = true) :
    parseUnsigned l = some ((charsVal l : ℚ)) := by
  have ht : l.takeWhile isDig = l := by
    have := @List.takeWhile_append_of_pos _ isDig l [] h
    simpa using this
  have hd : l.dropWhile isDig = [] := by
    have := @List.dropWhile_append_of_pos _ isDig l [] h
    simpa using this
  simp only [parseUnsigned, ht, hd]
  rw [if_pos trivial]
  unfold parseUFrac
  rw [if_pos]
  · simp [show charsVal [] = 0 from rfl]
  · simp [List.all_eq_true.mpr h, hne]

lemma parseUnsigned_dotted (l1 l2 : List Char) (hne : l1 ≠ [])
    (h1 : ∀ c ∈ l1, isDig c = true) (h2 : ∀ c ∈ l2, isDig c = true) :
    parseUnsigned (l1 ++ '.' :: l2)
      = some ((charsVal l1 : ℚ) + (charsVal l2 : ℚ) / 10 ^ l2.length) := by
  have hdot : isDig '.' = false := by decide
  have ht : (l1 ++ '.' :: l2).takeWhile isDig = l1 := by
    rw [List.takeWhile_append_of_pos h1]
    simp [List.takeWhile_cons, hdot]
  have hd : (l1 ++ '.' :: l2).dropWhile isDig = '.' :: l2 := by
    rw [List.dropWhile_append_of_pos h1]
    simp [List.dropWhile_cons, hdot]
  simp only [parseUnsigned, ht, hd]
  rw [if_neg (by simp), if_pos (by simp), if_pos (by simpa using List.all_eq_true.mpr h2)]
  unfold parseUFrac
  rw [if_pos]
  · simp
  · simp [List.all_eq_true.mpr h1, List.all_eq_true.mpr h2, hne]

lemma fmtNonneg_roundtrip {q : ℚ} (h0 : 0 ≤ q) (hdvd : q.den ∣ 10 ^ decScale q.den) :
    parseUnsigned (fmtNonneg q) = some q := by
  have hden0 : (q.den : ℚ) ≠ 0 := Nat.cast_ne_zero.mpr q.den_nz
  set k := decScale q.den with hk
  set n := q.num.toNat * 10 ^ k / q.den with hn
  have hexact : n * q.den = q.num.toNat * 10 ^ k :=
    Nat.div_mul_cancel (Dvd.dvd.mul_left hdvd _)
  have hnum0 : (0 : ℤ) ≤ q.num := Rat.num_nonneg.mpr h0
  have hq : (n : ℚ) = q * 10 ^ k := by
    have h1 : (n : ℚ) * (q.den : ℚ) = ((q.num.toNat : ℕ) : ℚ) * 10 ^ k := by
      exact_mod_cast congrArg (fun x : ℕ => (x : ℚ)) hexact
    have h2 : ((q.num.toNat : ℕ) : ℚ) = (q.num : ℚ) := by
      exact_mod_cast congrArg (fun x : ℤ => (x : ℚ)) (Int.toNat_of_nonneg hnum0)
    have hqd : q * (q.den : ℚ) = (q.num : ℚ) :=
      (eq_div_iff hden0).mp (Rat.num_div_den q).symm
    rw [h2, ← hqd] at h1
    have h3 : (n : ℚ) * (q.den : ℚ) = q * 10 ^ k * (q.den : ℚ) := by
      rw [h1]; ring
    exact mul_right_cancel₀ hden0 h3
  by_cases hk0 : k = 0
  · have hfmt : fmtNonneg q = natToStr n := by
      simp only [fmtNonneg, ← hk, ← hn, if_pos hk0]
    rw [hfmt, parseUnsigned_all_dig _ (natToStr_ne_nil _) (natToStr_all_isDig _),
      charsVal_natToStr]
    rw [hq, hk0]
    norm_num
  · have hfmt : fmtNonneg q = natToStr (n / 10 ^ k) ++ '.' :: fracChars (n % 10 ^ k) k := by
      simp only [fmtNonneg, ← hk, ← hn, if_neg hk0]
    have hpow0 : (0 : ℕ) < 10 ^ k := Nat.pos_pow_of_pos k (by norm_num)
    rw [hfmt, parseUnsigned_dotted _ _ (natToStr_ne_nil _) (natToStr_all_isDig _)
      (fracChars_all_isDig _ _), charsVal_natToStr, charsVal_fracChars,
      fracChars_length (Nat.mod_lt _ hpow0)]
    have hqn : q = (n : ℚ) / 10 ^ k := by
      rw [hq]; field_simp
    have hp10 : ((10 : ℚ) ^ k) ≠ 0 := by positivity
    have key : (↑(n / 10 ^ k) : ℚ) + ↑(n % 10 ^ k) / 10 ^ k = ↑n / 10 ^ k := by
      rw [eq_div_iff hp10, add_mul, div_mul_cancel₀ _ hp10]
      exact_mod_cast Nat.div_add_mod' n (10 ^ k)
    rw [hqn, key]

lemma fmtNonneg_exists_cons (q : ℚ) :
    ∃ c cs, fmtNonneg q = c :: cs ∧ isDig c = true := by
  simp only [fmtNonneg]
  split
  · obtain ⟨c, cs, hl⟩ := List.exists_cons_of_ne_nil (natToStr_ne_nil
      (q.num.toNat * 10 ^ decScale q.den / q.den))
    exact ⟨c, cs, hl, natToStr_all_isDig _ c (hl ▸ List.mem_cons_self c cs)⟩
  · obtain ⟨c, cs, hl⟩ := List.exists_cons_of_ne_nil (natToStr_ne_nil
      (q.num.toNat * 10 ^ decScale q.den / q.den / 10 ^ decScale q.den))
    refine ⟨c, cs ++ '.' :: fracChars
      (q.num.toNat * 10 ^ decScale q.den / q.den % 10 ^ decScale q.den)
      (decScale q.den), ?_, ?_⟩
    · rw [hl]; simp
    · exact natToStr_all_isDig _ c (hl ▸ List.mem_cons_self c cs)

lemma parseGoFloat_mk_cons {c : Char} {cs : List Char} (h : isDig c = true) :
    parseGoFloat ⟨c :: cs⟩ = parseUnsigned (c :: cs) := by
  have h1 : c ≠ '-' := by rintro rfl; exact absurd h (by decide)
  have h2 : c ≠ '+' := by rintro rfl; exact absurd h (by decide)
  simp [parseGoFloat, h1, h2]

lemma parseGoFloat_mk_neg (l : List Char) :
    parseGoFloat ⟨'-' :: l⟩ = (parseUnsigned l).map (fun v => -v) := by
  simp [parseGoFloat]

/-- Round trip of the decimal amount codec: any rational with a
power-of-2-times-power-of-5 denominator (in particular any `float64`
value) survives `FormatFloat` followed by `ParseFloat` unchanged. -/
theorem fmtAmount_roundtrip {q : ℚ} (hden : ∃ a b, q.den = 2 ^ a * 5 ^ b) :
    parseGoFloat (fmtAmount q) = some q := by
  have hdvd : q.den ∣ 10 ^ decScale q.den := decScale_dvd hden
  by_cases hneg : q < 0
  · rw [fmtAmount, if_pos hneg, parseGoFloat_mk_neg]
    have hd' : (-q).den = q.den := Rat.den_neg_eq_den q
    have hr : parseUnsigned (fmtNonneg (-q)) = some (-q) := by
      apply fmtNonneg_roundtrip (by linarith)
      rw [hd']; exact hdvd
    rw [hr]
    simp
  · push_neg at hneg
    rw [fmtAmount, if_neg (not_lt.mpr hneg)]
    obtain ⟨c, cs, hl, hc⟩ := fmtNonneg_exists_cons q
    rw [hl, parseGoFloat_mk_cons hc, ← hl]
    exact fmtNonneg_roundtrip hneg hdvd

lemma parseUnsigned_fmtNonneg_isSome (q : ℚ) :
    ∃ v, parseUnsigned (fmtNonneg q) = some v := by
  simp only [fmtNonneg]
  split
  · exact ⟨_, parseUnsigned_all_dig _ (natToStr_ne_nil _) (natToStr_all_isDig _)⟩
  · exact ⟨_, parseUnsigned_dotted _ _ (natToStr_ne_nil _) (natToStr_all_isDig _)
      (fracChars_all_isDig _ _)⟩

lemma parseGoFloat_fmtAmount_isSome (q : ℚ) :
    ∃ v, parseGoFloat (fmtAmount q) = some v := by
  by_cases hneg : q < 0
  · rw [fmtAmount, if_pos hneg, parseGoFloat_mk_neg]
    obtain ⟨v, hv⟩ := parseUnsigned_fmtNonneg_isSome (-q)
    exact ⟨-v, by rw [hv]; rfl⟩
  · rw [fmtAmount, if_neg hneg]
    obtain ⟨c, cs, hl, hc⟩ := fmtNonneg_exists_cons q
    rw [hl, parseGoFloat_mk_cons hc, ← hl]
    exact parseUnsigned_fmtNonneg_isSome q

/- ## Envelope-parse evaluation lemmas -/

lemma mcParseSuccess_invoke_env {tid st cur amtStr : String} {now : ℤ} {a : ℚ}
    (h : parseGoFloat amtStr = some a) :
    mcParseSuccess (GoVal.obj [("transaction_id", GoVal.str tid),
      ("status", GoVal.str st), ("amount", GoVal.str amtStr),
      ("currency", GoVal.str cur), ("timestamp", GoVal.time now)])
      = POut.ok ⟨true, tid, st, a, cur, some now⟩ := by
  simp [mcParseSuccess, lookupF, h]

lemma visaParseSuccess_invoke_env {pid st amtStr cur : String} {pa : ℤ} :
    visaParseSuccess (GoVal.obj [("payment_id", GoVal.str pid),
      ("state", GoVal.str st),
      ("value", GoVal.obj [("amount", GoVal.str amtStr),
        ("currency_code", GoVal.str cur)]),
      ("processed_at", GoVal.int pa)])
      = POut.ok ⟨true, pid, st, (parseGoFloat amtStr).getD 0, cur, some pa⟩ := by
  simp [visaParseSuccess, unmarshalVisaResponse, decStrField, decIntField, lookupF,
    decStrVal, decIntVal, decVisaValue]

lemma mcParseError_invoke_env :
    mcParseError (GoVal.obj [("error_code", GoVal.str "MC0001"),
      ("message", GoVal.str "Insufficient funds")])
      = POut.ok ⟨false, "MC0001", "Insufficient funds"⟩ := by
  simp [mcParseError, unmarshalMcError, decStrField, lookupF, decStrVal]

lemma visaParseError_nested {t r c : String} :
    visaParseError (GoVal.obj [("error_type", GoVal.str t),
      ("reason", GoVal.str r),
      ("details", GoVal.obj [("code", GoVal.str c)])])
      = POut.ok ⟨false, c, "ErrorType:" ++ t ++ " :: ErrorReason: " ++ r⟩ := by
  simp [visaParseError, unmarshalVisaError, decStrField, lookupF, decStrVal,
    decVisaDetails]

/- ## Registry lemmas -/

lemma registerProviders_append (ps : List Provider) (p : Provider) (n : String) :
    registerProviders (ps ++ [p]) n
      = if n = p.getName then some p else registerProviders ps n := by
  unfold registerProviders
  rw [List.foldl_append]
  rfl

lemma refProcessor_eval (n : String) :
    refProcessor n = if n = "visa" then some getNewVisaPaymentProvider
      else if n = "mastercard" then some getNewMasterCardPaymentProvider else none := by
  rfl

/- ## Invoke evaluation lemmas -/

lemma mcInvoke_err {draw : ℚ} {now : ℤ} {r : PaymentRequest} (hd : draw < 1/10) :
    mcInvoke draw now r = (GoVal.null,
      GoVal.obj [("error_code", GoVal.str "MC0001"),
                 ("message", GoVal.str "Insufficient funds")]) := by
  rw [mcInvoke, if_pos hd]

lemma mcInvoke_ok {draw : ℚ} {now : ℤ} {r : PaymentRequest} (hd : ¬ draw < 1/10) :
    mcInvoke draw now r
      = (GoVal.obj [("transaction_id", GoVal.str "TX1234567890"),
                    ("status", GoVal.str "APPROVED"),
                    ("amount", GoVal.str (fmtAmount r.amount)),
                    ("currency", GoVal.str r.currency),
                    ("timestamp", GoVal.time now)], GoVal.null) := by
  rw [mcInvoke, if_neg hd]

lemma visaInvoke_err {draw : ℚ} {r : PaymentRequest} (hd : draw < 1/10) :
    visaInvoke draw r = (GoVal.null,
      GoVal.obj [("error_type", GoVal.str "PAYMENT_FAILED"),
                 ("reason", GoVal.str "Card declined"),
                 ("details", GoVal.obj [("code", GoVal.str "EE000011")])]) := by
  rw [visaInvoke, if_pos hd]

lemma visaInvoke_ok {draw : ℚ} {r : PaymentRequest} (hd : ¬ draw < 1/10) :
    visaInvoke draw r
      = (GoVal.obj [("payment_id", GoVal.str "PPAAYY--778899--XXYYZZ"),
                    ("state", GoVal.str "SUCCESS"),
                    ("value", GoVal.obj [("amount", GoVal.str (fmtAmount r.amount)),
                                         ("currency_code", GoVal.str r.currency)]),
                    ("processed_at", GoVal.int 1677587921)], GoVal.null) := by
  rw [visaInvoke, if_neg hd]

/- ## Pipeline evaluation lemmas -/

lemma processPayment_resolve_none {m : String → Option Provider}
    {req : PaymentRequest} {draw : ℚ} {now : ℤ} (h : m req.mode = none) :
    processPayment m req draw now = POut.ok (none, some ⟨false, "INVALID_PROVIDER",
      "invalid provider name provided: \x27" ++ req.mode ++ "\x27"⟩) := by
  simp [processPayment, getProvider, h]

lemma processPayment_validate_some {m : String → Option Provider}
    {req : PaymentRequest} {draw : ℚ} {now : ℤ} {p : Provider} {vmsg : String}
    (h : m req.mode = some p) (hv : p.validateRequest req = some vmsg) :
    processPayment m req draw now
      = POut.ok (none, some ⟨false, "INVALID_REQUEST", vmsg⟩) := by
  simp [processPayment, getProvider, h, hv]

lemma processPayment_mc_err {m : String → Option Provider} {req : PaymentRequest}
    {draw : ℚ} {now : ℤ} {pn : String}
    (h : m req.mode = some (Provider.mastercard pn)) (hv : mcValidate req = none)
    (hd : draw < 1/10) :
    processPayment m req draw now
      = POut.ok (none, some ⟨false, "MC0001", "Insufficient funds"⟩) := by
  simp [processPayment, getProvider, h, Provider.validateRequest, hv,
    Provider.invoke, mcInvoke_err hd, Provider.parseErrorResponse,
    mcParseError_invoke_env]

lemma processPayment_mc_ok {m : String → Option Provider} {req : PaymentRequest}
    {draw : ℚ} {now : ℤ} {pn : String}
    (h : m req.mode = some (Provider.mastercard pn)) (hv : mcValidate req = none)
    (hd : ¬ draw < 1/10) :
    ∃ a, parseGoFloat (fmtAmount req.amount) = some a ∧
      processPayment m req draw now
        = POut.ok (some ⟨true, "TX1234567890", "APPROVED", a, req.currency, some now⟩,
            none) := by
  obtain ⟨a, ha⟩ := parseGoFloat_fmtAmount_isSome req.amount
  refine ⟨a, ha, ?_⟩
  simp [processPayment, getProvider, h, Provider.validateRequest, hv,
    Provider.invoke, mcInvoke_ok hd, Provider.parseSuccessResponse,
    mcParseSuccess_invoke_env ha]

lemma processPayment_visa_err {m : String → Option Provider} {req : PaymentRequest}
    {draw : ℚ} {now : ℤ} {pn : String}
    (h : m req.mode = some (Provider.visa pn)) (hv : visaValidate req = none)
    (hd : draw < 1/10) :
    processPayment m req draw now
      = POut.ok (none, some ⟨false, "EE000011",
          "ErrorType:PAYMENT_FAILED :: ErrorReason: Card declined"⟩) := by
  simp [processPayment, getProvider, h, Provider.validateRequest, hv,
    Provider.invoke, visaInvoke_err hd, Provider.parseErrorResponse,
    visaParseError_nested]

lemma processPayment_visa_ok {m : String → Option Provider} {req : PaymentRequest}
    {draw : ℚ} {now : ℤ} {pn : String}
    (h : m req.mode = some (Provider.visa pn)) (hv : visaValidate req = none)
    (hd : ¬ draw < 1/10) :
    processPayment m req draw now
      = POut.ok (some ⟨true, "PPAAYY--778899--XXYYZZ", "SUCCESS",
          (parseGoFloat (fmtAmount req.amount)).getD 0, req.currency,
          some 1677587921⟩, none) := by
  simp [processPayment, getProvider, h, Provider.validateRequest, hv,
    Provider.invoke, visaInvoke_ok hd, Provider.parseSuccessResponse,
    visaParseSuccess_invoke_env]

/- ## Validation lemmas -/

lemma mcValidate_some_of_bad (r : PaymentRequest)
    (hbad : r.amount ≤ 0 ∨ r.cardNumber.length < 13 ∨ r.cardNumber.length > 19 ∨
            r.cvv.length < 3 ∨ r.cvv.length > 4) :
    ∃ m, mcValidate r = some m := by
  unfold mcValidate
  split_ifs with h1 h2 h3 h4 h5 h6 h7 h8
  any_goals exact ⟨_, rfl⟩
  exfalso
  rcases hbad with hb | hb | hb | hb | hb
  · exact h1 hb
  · exact h5 (Or.inl hb)
  · exact h5 (Or.inr hb)
  · exact h8 (Or.inl hb)
  · exact h8 (Or.inr hb)

lemma visaValidate_eq_mcValidate (r : PaymentRequest) :
    visaValidate r = mcValidate r := rfl

/- ## Claims -/

/-- C2: the claim says no input to `ProcessPayment`, `ParseSuccessResponse`
or `ParseErrorResponse` causes an unhandled fault.  The code contradicts it:
mastercard's `ParseSuccessResponse` reaches the unchecked type assertion
`data["transaction_id"].(string)` on an envelope that carries a string
`amount` but no `transaction_id` field, and panics. -/
theorem claim_C2_mc_parse_panics :
    mcParseSuccess (GoVal.obj [("amount", GoVal.str "1")])
      = POut.fault "interface conversion: interface is not string" := by
  have h1 : parseGoFloat "1" = some 1 := by
    simp +decide [parseGoFloat, parseUnsigned, parseUFrac, charsVal, dVal, Nat.ofDigits]
  simp [mcParseSuccess, lookupF, h1]

/-- C3: the claim says each reference adapter's parseSuccess fails with a
ParseFailure on a missing/malformed required field and never substitutes a
default.  The code contradicts it for visa: `ParseSuccessResponse` of the
empty envelope succeeds, substituting amount 0 and empty strings for every
required field (the `strconv.ParseFloat` error is discarded). -/
theorem claim_C3_visa_defaults :
    visaParseSuccess (GoVal.obj [])
      = POut.ok ⟨true, "", "", 0, "", some 0⟩ := by
  simp [visaParseSuccess, unmarshalVisaResponse, decStrField, decIntField, lookupF,
    show parseGoFloat "" = none from rfl]

/-- C5: for every request whose mode resolves to a reference adapter, a
non-positive amount, a card number length outside [13,19] or a CVV length
outside [3,4] yields a NormalizedError with errorCode INVALID_REQUEST. -/
theorem claim_C5 (req : PaymentRequest) (draw : ℚ) (now : ℤ)
    (hmode : req.mode = "mastercard" ∨ req.mode = "visa")
    (hbad : req.amount ≤ 0 ∨ req.cardNumber.length < 13 ∨ req.cardNumber.length > 19 ∨
            req.cvv.length < 3 ∨ req.cvv.length > 4) :
    ∃ e, processPayment refProcessor req draw now = POut.ok (none, some e) ∧
         e.errorCode = "INVALID_REQUEST" := by
  obtain ⟨msg, hval⟩ := mcValidate_some_of_bad req hbad
  rcases hmode with hm | hm
  · have hres : refProcessor req.mode = some (Provider.mastercard "mastercard") := by
      rw [refProcessor_eval, hm]; simp [getNewMasterCardPaymentProvider]
    exact ⟨_, processPayment_validate_some hres
      (show (Provider.mastercard "mastercard").validateRequest req = some msg from hval),
      rfl⟩
  · have hres : refProcessor req.mode = some (Provider.visa "visa") := by
      rw [refProcessor_eval, hm]; simp [getNewVisaPaymentProvider]
    exact ⟨_, processPayment_validate_some hres
      (show (Provider.visa "visa").validateRequest req = some msg from hval), rfl⟩

/-- Witness for C5 at a concrete bad request (visa, amount -1). -/
theorem claim_C5_witness :
    (reqBadAmount.mode = "mastercard" ∨ reqBadAmount.mode = "visa") ∧
    (reqBadAmount.amount ≤ 0 ∨ reqBadAmount.cardNumber.length < 13 ∨
      reqBadAmount.cardNumber.length > 19 ∨ reqBadAmount.cvv.length < 3 ∨
      reqBadAmount.cvv.length > 4) ∧
    ∃ e, processPayment refProcessor reqBadAmount (1/2) 0 = POut.ok (none, some e) ∧
         e.errorCode = "INVALID_REQUEST" :=
  ⟨Or.inr rfl, Or.inl (by norm_num [reqBadAmount]),
   claim_C5 reqBadAmount (1/2) 0 (Or.inr rfl) (Or.inl (by norm_num [reqBadAmount]))⟩

/-- C7: visa's parseError maps the nested error shape to
errorCode = details.code and
errorMessage = "ErrorType:" + type + " :: ErrorReason: " + reason;
in particular the PAYMENT_FAILED / Card declined / EE000011 envelope. -/
theorem claim_C7 :
    (∀ t r c, visaParseError (GoVal.obj [("error_type", GoVal.str t),
        ("reason", GoVal.str r),
        ("details", GoVal.obj [("code", GoVal.str c)])])
      = POut.ok ⟨false, c, "ErrorType:" ++ t ++ " :: ErrorReason: " ++ r⟩) ∧
    visaParseError (GoVal.obj [("error_type", GoVal.str "PAYMENT_FAILED"),
        ("reason", GoVal.str "Card declined"),
        ("details", GoVal.obj [("code", GoVal.str "EE000011")])])
      = POut.ok ⟨false, "EE000011",
          "ErrorType:PAYMENT_FAILED :: ErrorReason: Card declined"⟩ := by
  refine ⟨fun t r c => visaParseError_nested, ?_⟩
  rw [visaParseError_nested]
  rfl

/-- C8 counterexample: the claim says visa's invoke returns an error
envelope iff the draw is below 0.15; at draw 0.12 the claim demands an
error envelope, but the source gate is `rand.Float64() < 0.1`, so the call
returns a success envelope (error slot nil). -/
theorem claim_C8_counterexample :
    ((12 : ℚ)/100 < 15/100) ∧ (visaInvoke ((12 : ℚ)/100) reqVisaOK).2 = GoVal.null := by
  refine ⟨by norm_num, ?_⟩
  rw [visaInvoke_ok (by norm_num)]

/-- C8 as amended: both adapters' invoke returns an error envelope iff the
draw is below 0.10, and otherwise returns a success envelope. -/
theorem claim_C8_amended (draw : ℚ) (now : ℤ) (req : PaymentRequest) :
    ((mcInvoke draw now req).2 ≠ GoVal.null ↔ draw < 1/10) ∧
    ((mcInvoke draw now req).1 = GoVal.null ↔ draw < 1/10) ∧
    ((visaInvoke draw req).2 ≠ GoVal.null ↔ draw < 1/10) ∧
    ((visaInvoke draw req).1 = GoVal.null ↔ draw < 1/10) := by
  by_cases hd : draw < 1/10
  · rw [mcInvoke_err hd, visaInvoke_err hd]
    exact ⟨iff_of_true (by simp) hd, iff_of_true rfl hd,
      iff_of_true (by simp) hd, iff_of_true rfl hd⟩
  · rw [mcInvoke_ok hd, visaInvoke_ok hd]
    exact ⟨iff_of_false (by simp) hd, iff_of_false (by simp) hd,
      iff_of_false (by simp) hd, iff_of_false (by simp) hd⟩

/-- C9: the registry is an ordered fold with overwrite, so the adapter
registered last under a name wins, with no error; in general `resolve`
returns the last-registered adapter with the requested name. -/
theorem claim_C9 :
    (∀ ps p, registerProviders (ps ++ [p]) p.getName = some p) ∧
    (∀ ps n, registerProviders ps n
      = ps.reverse.find? (fun p => decide (p.getName = n))) := by
  constructor
  · intro ps p
    rw [registerProviders_append, if_pos rfl]
  · intro ps n
    induction ps using List.reverseRecOn with
    | nil => rfl
    | append_singleton ps p ih =>
      rw [registerProviders_append, List.reverse_append]
      simp only [List.reverse_cons, List.reverse_nil, List.nil_append,
        List.singleton_append]
      by_cases hn : n = p.getName
      · rw [if_pos hn, List.find?_cons_of_pos _ (by simp [hn])]
      · rw [if_neg hn, List.find?_cons_of_neg _ (by simp; exact fun h => hn (Eq.symm h)), ih]

/-- C10: both reference validators return the failure reason of the first
violated check in the fixed check order, and never aggregate (they return at
most one reason). -/
theorem claim_C10 (r : PaymentRequest) :
    mcValidate r = firstViolation r ∧ visaValidate r = firstViolation r := by
  have h : mcValidate r = firstViolation r := by
    unfold mcValidate firstViolation specCheckOrder
    split_ifs with h1 h2 h3 h4 h5 h6 h7 h8 <;>
      simp [List.findSome?, *]
  exact ⟨h, by rw [visaValidate_eq_mcValidate, h]⟩

/-- C1: for every request (over any registered adapter list), ProcessPayment
returns exactly one of a normalized response or a normalized error — one
component non-null, the other null, never a fault — and the response case
occurs only when resolution, validation, invocation and success-parsing all
succeeded. -/
theorem claim_C1 (ps : List Provider) (req : PaymentRequest) (draw : ℚ) (now : ℤ) :
    (∃ r, processPayment (registerProviders ps) req draw now = POut.ok (some r, none) ∧
       ∃ p, registerProviders ps req.mode = some p ∧
         p.validateRequest req = none ∧
         (p.invoke draw now req).2 = GoVal.null ∧
         p.parseSuccessResponse ((p.invoke draw now req).1) = POut.ok r) ∨
    (∃ e, processPayment (registerProviders ps) req draw now = POut.ok (none, some e)) := by
  cases hres : registerProviders ps req.mode with
  | none => exact Or.inr ⟨_, processPayment_resolve_none hres⟩
  | some p =>
    cases hval : p.validateRequest req with
    | some vmsg => exact Or.inr ⟨_, processPayment_validate_some hres hval⟩
    | none =>
      cases p with
      | mastercard pn =>
        by_cases hd : draw < 1/10
        · exact Or.inr ⟨_, processPayment_mc_err hres hval hd⟩
        · obtain ⟨a, ha, hp⟩ := processPayment_mc_ok hres hval hd
          refine Or.inl ⟨_, hp, ⟨Provider.mastercard pn, rfl, hval, ?_, ?_⟩⟩
          · show (mcInvoke draw now req).2 = GoVal.null
            rw [mcInvoke_ok hd]
          · show mcParseSuccess ((mcInvoke draw now req).1) = POut.ok _
            rw [mcInvoke_ok hd]
            exact mcParseSuccess_invoke_env ha
      | visa pn =>
        by_cases hd : draw < 1/10
        · exact Or.inr ⟨_, processPayment_visa_err hres hval hd⟩
        · refine Or.inl ⟨_, processPayment_visa_ok hres hval hd,
            ⟨Provider.visa pn, rfl, hval, ?_, ?_⟩⟩
          · show (visaInvoke draw req).2 = GoVal.null
            rw [visaInvoke_ok hd]
          · show visaParseSuccess ((visaInvoke draw req).1) = POut.ok _
            rw [visaInvoke_ok hd]
            exact visaParseSuccess_invoke_env

/-- C4: with the two reference adapters registered, ProcessPayment yields a
NormalizedError with errorCode INVALID_PROVIDER exactly when the request
mode is not a registered adapter name — the code is produced at the resolve
stage and at no other stage. -/
theorem claim_C4 (req : PaymentRequest) (draw : ℚ) (now : ℤ) :
    (∃ e, processPayment refProcessor req draw now = POut.ok (none, some e) ∧
       e.errorCode = "INVALID_PROVIDER")
    ↔ (req.mode ≠ "mastercard" ∧ req.mode ≠ "visa") := by
  constructor
  · rintro ⟨e, he, hcode⟩
    by_contra hmode
    rw [not_and_or, not_ne_iff, not_ne_iff] at hmode
    rcases hmode with hm | hm
    · have hres : refProcessor req.mode = some (Provider.mastercard "mastercard") := by
        rw [refProcessor_eval, hm]; simp [getNewMasterCardPaymentProvider]
      cases hval : mcValidate req with
      | some v =>
        rw [processPayment_validate_some hres
          (show (Provider.mastercard "mastercard").validateRequest req = some v
            from hval)] at he
        simp at he
        rw [← he] at hcode
        simp at hcode
      | none =>
        by_cases hd : draw < 1/10
        · rw [processPayment_mc_err hres hval hd] at he
          simp at he
          rw [← he] at hcode
          simp at hcode
        · obtain ⟨a, ha, hp⟩ := processPayment_mc_ok hres hval hd
          rw [hp] at he
          simp at he
    · have hres : refProcessor req.mode = some (Provider.visa "visa") := by
        rw [refProcessor_eval, hm]; simp [getNewVisaPaymentProvider]
      cases hval : visaValidate req with
      | some v =>
        rw [processPayment_validate_some hres
          (show (Provider.visa "visa").validateRequest req = some v from hval)] at he
        simp at he
        rw [← he] at hcode
        simp at hcode
      | none =>
        by_cases hd : draw < 1/10
        · rw [processPayment_visa_err hres hval hd] at he
          simp at he
          rw [← he] at hcode
          simp at hcode
        · rw [processPayment_visa_ok hres hval hd] at he
          simp at he
  · rintro ⟨h1, h2⟩
    have hres : refProcessor req.mode = none := by
      rw [refProcessor_eval, if_neg h2, if_neg h1]
    exact ⟨_, processPayment_resolve_none hres, rfl⟩

/-- C6: on the success path (validation passed, invoke drew a success
envelope, parsing succeeded), the amount and currency of the returned
NormalizedResponse equal those of the submitted request, for both reference
adapters, through the decimal-string wire encoding of the amount. -/
theorem claim_C6 (req : PaymentRequest) (draw : ℚ) (now : ℤ)
    (hd : ¬ draw < 1/10) (hden : ∃ a b, req.amount.den = 2 ^ a * 5 ^ b) :
    (req.mode = "mastercard" → mcValidate req = none →
      ∃ r, processPayment refProcessor req draw now = POut.ok (some r, none) ∧
        r.amount = req.amount ∧ r.currency = req.currency) ∧
    (req.mode = "visa" → visaValidate req = none →
      ∃ r, processPayment refProcessor req draw now = POut.ok (some r, none) ∧
        r.amount = req.amount ∧ r.currency = req.currency) := by
  have hrt := fmtAmount_roundtrip hden
  constructor
  · intro hm hval
    have hres : refProcessor req.mode = some (Provider.mastercard "mastercard") := by
      rw [refProcessor_eval, hm]; simp [getNewMasterCardPaymentProvider]
    obtain ⟨a, ha, hp⟩ := processPayment_mc_ok hres hval hd
    have haq : a = req.amount := by
      rw [hrt] at ha
      exact (Option.some.inj ha).symm
    exact ⟨_, hp, haq, rfl⟩
  · intro hm hval
    have hres : refProcessor req.mode = some (Provider.visa "visa") := by
      rw [refProcessor_eval, hm]; simp [getNewVisaPaymentProvider]
    refine ⟨_, processPayment_visa_ok hres hval hd, ?_, rfl⟩
    show (parseGoFloat (fmtAmount req.amount)).getD 0 = req.amount
    rw [hrt]
    rfl

/-- Witness for C6 at the integration-test request (visa, amount 100). -/
theorem claim_C6_witness :
    ¬ ((1 : ℚ)/2 < 1/10) ∧ (∃ a b, (reqVisaOK.amount).den = 2 ^ a * 5 ^ b) ∧
    ∃ r, processPayment refProcessor reqVisaOK (1/2) 0 = POut.ok (some r, none) ∧
      r.amount = reqVisaOK.amount ∧ r.currency = reqVisaOK.currency := by
  refine ⟨by norm_num, ⟨0, 0, by decide⟩, ?_⟩
  exact (claim_C6 reqVisaOK (1/2) 0 (by norm_num) ⟨0, 0, by decide⟩).2 rfl (by decide)
